import Mathlib

/-!
Verification development for the DSTech dashboard's period-aware operational
metrics aggregation engine (`dstech_app.py`, `dstech_charts.py`).

The Python/SQL code is shallowly embedded over exact rational arithmetic
(`ℚ`).  SQL `NUMERIC` values, Python floats and their sums/ratios are
modelled as `ℚ`; record tables are lists of typed rows; a query that the
database layer absorbs into an empty result is modelled by a boolean
failure flag per query (the source's `DatabaseManager.execute_query`
catches every exception and returns an empty DataFrame).

`round(x, n)` (Python) and `ROUND(x, n)` (SQL) are modelled by
`roundTo n x = round (x * 10^n) / 10^n` with Mathlib's `round`
(`⌊x + 1/2⌋`).  Python uses round-half-to-even and SQL half-away-from-zero;
the three agree except at exact half-ulp ties, which no statement below
exercises.
-/

namespace DSTech

/-- A point in time: whole days since an arbitrary epoch plus a
time-of-day fraction in `[0, 1)`.  Models Python `datetime` /
SQL `timestamp`; `day` is the value of the SQL `::date` cast. -/
structure DT where
  day : Int
  tod : ℚ
deriving DecidableEq, Repr

/-- Linearize a timestamp for comparisons (`day + tod`); order-faithful on
timestamps whose `tod` lies in `[0, 1)`. -/
def DT.toQ (t : DT) : ℚ := (t.day : ℚ) + t.tod

/-- `timestamp >= start AND timestamp < end_exclusive` — the half-open
window filter used by all report queries. -/
def inWindow (s e t : DT) : Bool :=
  decide (s.toQ ≤ t.toQ) && decide (t.toQ < e.toQ)

/-- `"Time_Stamp" >= start AND "Time_Stamp" <= end` — the inclusive period
filter built by `get_operational_kpis` for a user-selected period. -/
def periodFilter (s e t : DT) : Bool :=
  decide (s.toQ ≤ t.toQ) && decide (t.toQ ≤ e.toQ)

/-- `datetime.replace(hour=0, minute=0, second=0, microsecond=0)`. -/
def floorToMidnight (t : DT) : DT := ⟨t.day, 0⟩

/-- `t + timedelta(days=1)`. -/
def addOneDay (t : DT) : DT := ⟨t.day + 1, t.tod⟩

/-- `end_exclusive = end_dt + timedelta(days=1)` as computed by
`generate_executive_report` (dstech_app.py line 230): one day is added but
the time-of-day component of `end_dt` is kept. -/
def genExecEndExclusive (e : DT) : DT := ⟨e.day + 1, e.tod⟩

/-- `end_exclusive = (end_dt + timedelta(days=1)).replace(hour=0, ...)` as
computed by `build_report_datasets` (dstech_app.py line 358). -/
def buildEndExclusive (e : DT) : DT := ⟨e.day + 1, 0⟩

/-- One `Sts_Dados` row (cumulative status poll): `D1` cumulative water m³,
`D2` cumulative cycle count, `D3` cumulative kilograms washed. -/
structure StsRow where
  ts : DT
  d1 : ℚ
  d2 : ℚ
  d3 : ℚ
deriving DecidableEq, Repr

/-- One `Rel_Diario` row (consolidated daily record): `C0` downtime
minutes, `C1` production minutes, `C2` water m³, `C4` production kg,
`C5` client id. -/
structure DiarioRow where
  ts : DT
  c0 : ℚ
  c1 : ℚ
  c2 : ℚ
  c4 : ℚ
  c5 : Int
deriving DecidableEq, Repr

/-- One `Rel_Carga` row (per-load ledger): `C1` client id, `C2` kg,
`C3` water m³. -/
structure CargaRow where
  ts : DT
  c1 : Int
  c2 : ℚ
  c3 : ℚ
deriving DecidableEq, Repr

/-- One `Rel_Quimico` row: nine named chemical quantities `Q1..Q9`. -/
structure QuimicoRow where
  ts : DT
  q1 : ℚ
  q2 : ℚ
  q3 : ℚ
  q4 : ℚ
  q5 : ℚ
  q6 : ℚ
  q7 : ℚ
  q8 : ℚ
  q9 : ℚ
deriving DecidableEq, Repr

/-- One `ALARMHISTORY` row: start time and optional normalization time. -/
structure AlarmRow where
  startTime : DT
  normTime : Option DT
deriving DecidableEq, Repr

/-- The record sources and the alias store visible to the engine. -/
structure Database where
  stsDados : List StsRow
  relDiario : List DiarioRow
  relCarga : List CargaRow
  relQuimico : List QuimicoRow
  alarmHistory : List AlarmRow
  clientAlias : List (Int × String)
deriving Repr

/-- Per-query failure flags.  `DatabaseManager.execute_query` catches every
exception and returns an empty DataFrame, so a failed query is observed by
its caller only as an empty result. -/
structure QueryEnv where
  prodFail : Bool
  cyclesWaterFail : Bool
  chemFail : Bool
  alarmsPeriodFail : Bool
  alarmsActiveFail : Bool
  prodClientFail : Bool
  dailyProdFail : Bool
  waterDailyFail : Bool
  chemDailyFail : Bool
  alarmsDailyFail : Bool
deriving Repr

/-- The all-successful environment. -/
def envOk : QueryEnv := ⟨false, false, false, false, false, false, false, false, false, false⟩

/-- Sum of `f` over a list of rows (SQL `SUM`, with `COALESCE(...,0)` on an
empty group). -/
def qsum {α : Type} (f : α → ℚ) (l : List α) : ℚ := (l.map f).sum

/-- Python `round(x, n)` / SQL `ROUND(x, n)` over exact rationals. -/
def roundTo (n : ℕ) (x : ℚ) : ℚ := (round (x * (10 : ℚ) ^ n) : ℤ) / (10 : ℚ) ^ n

/-- Python `int(x)`: truncation toward zero. -/
def truncToZero (q : ℚ) : ℤ := if 0 ≤ q then ⌊q⌋ else ⌈q⌉

/-- The numeric content of the dictionary returned by
`generate_executive_report` (values before display formatting). -/
structure ExecReport where
  period_days : ℤ
  period_production : ℚ
  period_cycles : ℤ
  daily_avg : ℚ
  avg_weight : ℚ
  water_period : ℚ
  water_per_kg : ℚ
  chemicals_period : ℚ
  chemicals_per_kg : ℚ
deriving Repr

/-! ## `generate_executive_report(start_date, end_date)` (dstech_app.py
lines 214–321), after string/None normalization of the inputs:

* `end_exclusive = end_dt + timedelta(days=1)`;
* production: `SUM("C4")` over `Rel_Diario` in `[start, end_exclusive)`;
* cycles and water: `SUM("D2")`, `SUM("D1") * 1000` over `Sts_Dados`
  in the same window;
* chemicals: `SUM(Q1+...+Q5)` over `Rel_Quimico` in the same window;
* `peso_medio = round(kg/cycles, 2) if cycles > 0 else 0.0`, and likewise
  for `agua_por_kg` (2 dp), `chemicals_per_kg` (4 dp);
* `days_diff = (end.date() - start.date()).days + 1`,
  `daily_avg = round(kg/days, 0) if days > 0 else 0`.

A query failure yields an empty DataFrame, read back as `0`.  Each SQL
query of the function is its own `exec…` definition below.
-/

/-- `prod_query`'s `COALESCE(SUM("C4"), 0)` over `Rel_Diario` in
`[start, end_exclusive)`. -/
def execTotalKg (db : Database) (env : QueryEnv) (start_dt end_dt : DT) : ℚ :=
  if env.prodFail then 0 else
    qsum (fun r => r.c4)
      (db.relDiario.filter (fun r => inWindow start_dt (genExecEndExclusive end_dt) r.ts))

/-- The `Sts_Dados` rows selected by `cycles_water_query`. -/
def execStsRows (db : Database) (start_dt end_dt : DT) : List StsRow :=
  db.stsDados.filter (fun r => inWindow start_dt (genExecEndExclusive end_dt) r.ts)

/-- `cycles_water_query`'s `COALESCE(SUM("D2"), 0)`, cast by `int(...)`. -/
def execTotalCycles (db : Database) (env : QueryEnv) (start_dt end_dt : DT) : ℤ :=
  if env.cyclesWaterFail then 0
  else truncToZero (qsum (fun r => r.d2) (execStsRows db start_dt end_dt))

/-- `cycles_water_query`'s `COALESCE(SUM("D1") * 1000, 0)`. -/
def execTotalWaterLiters (db : Database) (env : QueryEnv) (start_dt end_dt : DT) : ℚ :=
  if env.cyclesWaterFail then 0
  else qsum (fun r => r.d1) (execStsRows db start_dt end_dt) * 1000

/-- `chem_query`'s `COALESCE(SUM(Q1 + ... + Q5), 0)` over `Rel_Quimico`. -/
def execTotalChemicals (db : Database) (env : QueryEnv) (start_dt end_dt : DT) : ℚ :=
  if env.chemFail then 0 else
    qsum (fun r => r.q1 + r.q2 + r.q3 + r.q4 + r.q5)
      (db.relQuimico.filter (fun r => inWindow start_dt (genExecEndExclusive end_dt) r.ts))

/-- `days_diff = (end_dt.date() - start_dt.date()).days + 1`. -/
def execDaysDiff (start_dt end_dt : DT) : ℤ := end_dt.day - start_dt.day + 1

/-- The assembled report (see the component definitions above for the
individual queries). -/
def generateExecutiveReport (db : Database) (env : QueryEnv) (start_dt end_dt : DT) :
    ExecReport :=
  let total_kg := execTotalKg db env start_dt end_dt
  let total_cycles := execTotalCycles db env start_dt end_dt
  let total_water_liters := execTotalWaterLiters db env start_dt end_dt
  let total_chemicals := execTotalChemicals db env start_dt end_dt
  let days_diff := execDaysDiff start_dt end_dt
  { period_days := days_diff
    period_production := total_kg
    period_cycles := total_cycles
    daily_avg :=
      if 0 < days_diff then roundTo 0 (total_kg / (days_diff : ℚ)) else 0
    avg_weight :=
      if 0 < total_cycles then roundTo 2 (total_kg / (total_cycles : ℚ)) else 0
    water_period := total_water_liters
    water_per_kg :=
      if 0 < total_kg then roundTo 2 (total_water_liters / total_kg) else 0
    chemicals_period := total_chemicals
    chemicals_per_kg :=
      if 0 < total_kg then roundTo 4 (total_chemicals / total_kg) else 0 }

/-! ### `get_operational_kpis` (dstech_charts.py) -/

/-- `SELECT MAX("Time_Stamp"::date) FROM "Sts_Dados"` — `none` models the
SQL `NULL` returned on an empty table. -/
def maxStsDate (sts : List StsRow) : Option Int :=
  (sts.map (fun r => r.ts.day)).maximum

/-- Whether `Sts_Dados` has any row stamped with today's date
(`COUNT(*) > 0` for `"Time_Stamp"::date = today`). -/
def hasTodayData (sts : List StsRow) (today : Int) : Bool :=
  sts.any (fun r => r.ts.day == today)

/-- The date-resolution logic of `get_operational_kpis` (dstech_charts.py
lines 745–769).  Returns `(latest_date, resumo_exec_date)`:

* on a query failure both fall back to literal today
  (the `except` branch sets `latest_date = resumo_exec_date = today`);
* otherwise `latest_date` is `MAX("Time_Stamp"::date)` over the whole
  table, defaulting to today when the table is empty (`NULL` max), and
  `resumo_exec_date` is today when today has data, else `latest_date`.

`latest_date` scopes the main `_hoje` cumulative KPIs
(`date_filter_sts_hoje`), `resumo_exec_date` the executive-summary ones
(`date_filter_resumo_exec`). -/
def resolveStsDates (sts : List StsRow) (today : Int) (queryFail : Bool) : Int × Int :=
  if queryFail then (today, today)
  else
    let latest := (maxStsDate sts).getD today
    let resumo := if hasTodayData sts today then today else latest
    (latest, resumo)

/-- `ORDER BY "Time_Stamp" DESC LIMIT 1` over the rows of one calendar
day: the row with the maximal timestamp (later duplicates win ties). -/
def lastStsOfDay (sts : List StsRow) (d : Int) : Option StsRow :=
  (sts.filter (fun r => r.ts.day == d)).foldl
    (fun acc r =>
      match acc with
      | none => some r
      | some b => if b.ts.toQ ≤ r.ts.toQ then some r else some b)
    none

/-- Numeric columns of `sts_hoje_query` / `sts_resumo_exec_query`
(dstech_charts.py lines 801–838). -/
structure StsLastKpis where
  quilos : ℚ
  batchs : ℚ
  litros : ℚ
  peso_medio : ℚ
  litros_por_kg : ℚ
deriving DecidableEq, Repr

/-- `sts_hoje_query` / `sts_resumo_exec_query`: take the **last** record of
the given day (never a sum) and read its cumulative columns, with
`CASE WHEN`-guarded ratios; an empty result reads back as all zeros. -/
def stsLastOfDayKpis (sts : List StsRow) (d : Int) : StsLastKpis :=
  match lastStsOfDay sts d with
  | none => ⟨0, 0, 0, 0, 0⟩
  | some r =>
      { quilos := r.d3
        batchs := r.d2
        litros := r.d1 * 1000
        peso_medio := if 0 < r.d2 then roundTo 2 (r.d3 / r.d2) else 0
        litros_por_kg := if 0 < r.d3 then roundTo 2 ((r.d1 * 1000) / r.d3) else 0 }

/-- Optional client filter `AND "C5" = {client}`. -/
def clientOk (cf : Option Int) (r : DiarioRow) : Bool :=
  match cf with
  | none => true
  | some c => r.c5 == c

/-- Numeric columns of `sts_periodo_query` (dstech_charts.py
lines 841–856). -/
structure StsPeriodo where
  quilos : ℚ
  batchs : ℕ
  litros : ℚ
  peso_medio : ℚ
  litros_por_kg : ℚ
deriving DecidableEq, Repr

/-- `sts_periodo_query`: period aggregates over `Rel_Diario` rows with
`{date_filter_periodo} AND "C4" > 0` (no client filter on this query):
`SUM("C4")`, `COUNT(*)`, `SUM("C2") * 1000`, and the two guarded
ratios. -/
def stsPeriodoQuery (diario : List DiarioRow) (s e : DT) : StsPeriodo :=
  let rows := diario.filter (fun r => periodFilter s e r.ts && decide (0 < r.c4))
  let kg := qsum (fun r => r.c4) rows
  let water := qsum (fun r => r.c2) rows * 1000
  { quilos := kg
    batchs := rows.length
    litros := water
    peso_medio := if 0 < rows.length then roundTo 2 (kg / (rows.length : ℚ)) else 0
    litros_por_kg := if 0 < kg then roundTo 2 (water / kg) else 0 }

/-- `production_periodo_query` (dstech_charts.py lines 869–876):
`SUM("C4")` and `COUNT(*)` over `Rel_Diario` with
`{date_filter_periodo} AND "C4" > 0{client_filter_sql}`. -/
def productionPeriodoQuery (diario : List DiarioRow) (s e : DT) (cf : Option Int) :
    ℚ × ℕ :=
  let rows := diario.filter
    (fun r => periodFilter s e r.ts && decide (0 < r.c4) && clientOk cf r)
  (qsum (fun r => r.c4) rows, rows.length)

/-- `water_periodo_query` (dstech_charts.py lines 892–902):
`SUM("C2") * 1000` and the guarded liters-per-kg ratio over `Rel_Diario`
with `{date_filter_periodo} AND "C4" > 0{client_filter_sql}`. -/
def waterPeriodoQuery (diario : List DiarioRow) (s e : DT) (cf : Option Int) :
    ℚ × ℚ :=
  let rows := diario.filter
    (fun r => periodFilter s e r.ts && decide (0 < r.c4) && clientOk cf r)
  let kg := qsum (fun r => r.c4) rows
  let water := qsum (fun r => r.c2) rows * 1000
  (water, if 0 < kg then roundTo 2 (water / kg) else 0)

/-- `efficiency_query` (dstech_charts.py lines 933–942):

`CASE WHEN SUM("C1"+"C0") > 0 THEN
   ROUND((SUM("C1") / SUM("C1"+"C0")) * 100, 1) ELSE 0 END`
over `Rel_Diario` with
`{date_filter_periodo} AND "C1" > 0 AND "C0" >= 0{client_filter_sql}` —
a ratio of summed minutes.  `eficienciaRows` is the query's `WHERE`
clause: the qualifying records. -/
def eficienciaRows (diario : List DiarioRow) (s e : DT) (cf : Option Int) :
    List DiarioRow :=
  diario.filter
    (fun r => periodFilter s e r.ts && decide (0 < r.c1) && decide (0 ≤ r.c0) &&
      clientOk cf r)

/-- The `CASE`-guarded ratio of summed minutes computed by
`efficiency_query` over the qualifying rows. -/
def eficienciaMedia (diario : List DiarioRow) (s e : DT) (cf : Option Int) : ℚ :=
  let rows := eficienciaRows diario s e cf
  let den := qsum (fun r => r.c1 + r.c0) rows
  if 0 < den then roundTo 1 ((qsum (fun r => r.c1) rows / den) * 100) else 0

/-- `avg_efficiency` of `get_dashboard_summary` (dstech_charts.py
lines 1156–1164): `AVG(("C1" / ("C1" + "C0")) * 100)` — a **mean of
per-record ratios**, with no row filter.  A row with `C1 + C0 = 0` makes
the SQL division raise, `execute_query` absorbs that into an empty
DataFrame and the caller reads `0`; an empty table yields a `NULL`
average, which also surfaces as `0`.  The final Python
`round(·, 1)` is included. -/
def dashboardAvgEfficiency (diario : List DiarioRow) (inPeriod : DiarioRow → Bool) : ℚ :=
  let rows := diario.filter inPeriod
  if rows.isEmpty || rows.any (fun r => r.c1 + r.c0 == 0) then 0
  else roundTo 1 (qsum (fun r => (r.c1 / (r.c1 + r.c0)) * 100) rows / (rows.length : ℚ))

/-! ### `build_report_datasets` (dstech_app.py lines 347–455) -/

/-- Lookup in the `app.client_alias` store (the `LEFT JOIN ... ca` of
`prod_client_sql`). -/
def lookupAlias (aliases : List (Int × String)) (id : Int) : Option String :=
  (aliases.find? (fun p => p.1 == id)).map (fun p => p.2)

/-- `COALESCE(ca.alias, 'Cliente ' || CAST(rc."C1" AS TEXT))`
(dstech_app.py line 367). -/
def clientDisplay (aliases : List (Int × String)) (id : Int) : String :=
  (lookupAlias aliases id).getD ("Cliente " ++ toString id)

/-- `'Cliente ' || CAST("C1" AS TEXT)` as built unconditionally by
`get_client_performance_comparison` (dstech_app.py line 2369). -/
def clientPerformanceName (id : Int) : String := "Cliente " ++ toString id

/-- One row of `prod_client_sql`'s result. -/
structure ClientRow where
  client_id : Int
  client_display : String
  total_cargas : ℕ
  total_kg : ℚ
  peso_medio_kg : ℚ
deriving DecidableEq, Repr

/-- `prod_client_sql` (dstech_app.py lines 364–376): group the in-window
`Rel_Carga` rows by client id; per group `COUNT(*)`, `SUM("C2")` and
`COALESCE(AVG(NULLIF("C2", 0)), 0)` (zero-kg loads are excluded from the
average, and an all-zero group averages to `0`); display name via the
alias store; `ORDER BY total_kg DESC`. -/
def productionByClient (carga : List CargaRow) (aliases : List (Int × String))
    (s eEx : DT) : List ClientRow :=
  let rows := carga.filter (fun r => inWindow s eEx r.ts)
  let ids := (rows.map (fun r => r.c1)).dedup
  let grouped := ids.map (fun id =>
    let g := rows.filter (fun r => r.c1 == id)
    let nz := g.filter (fun r => !(r.c2 == 0))
    { client_id := id
      client_display := clientDisplay aliases id
      total_cargas := g.length
      total_kg := qsum (fun r => r.c2) g
      peso_medio_kg :=
        if 0 < nz.length then qsum (fun r => r.c2) nz / (nz.length : ℚ) else 0 })
  grouped.insertionSort (fun a b => b.total_kg ≤ a.total_kg)

/-- One row of `daily_prod_sql`'s result. -/
structure DailyProdRow where
  dia : Int
  cargas : ℕ
  kg : ℚ
deriving DecidableEq, Repr

/-- `daily_prod_sql` (dstech_app.py lines 380–389): in-window `Rel_Carga`
rows grouped by `"Time_Stamp"::date`; per day `COUNT(*)` and
`SUM("C2")`; `ORDER BY dia`. -/
def dailyProduction (carga : List CargaRow) (s eEx : DT) : List DailyProdRow :=
  let rows := carga.filter (fun r => inWindow s eEx r.ts)
  let days := ((rows.map (fun r => r.ts.day)).dedup).insertionSort (· ≤ ·)
  days.map (fun d =>
    let g := rows.filter (fun r => r.ts.day == d)
    ⟨d, g.length, qsum (fun r => r.c2) g⟩)

/-- One row of `water_daily_sql`'s result. -/
structure WaterDailyRow where
  dia : Int
  kg : ℚ
  ciclos : ℕ
  agua_litros : ℚ
deriving DecidableEq, Repr

/-- `water_daily_sql` (dstech_app.py lines 393–403): in-window `Rel_Diario`
rows grouped by day; per day `SUM("C4")`, `COUNT(*)`,
`SUM("C2") * 1000`. -/
def waterDailyQuery (diario : List DiarioRow) (s eEx : DT) : List WaterDailyRow :=
  let rows := diario.filter (fun r => inWindow s eEx r.ts)
  let days := ((rows.map (fun r => r.ts.day)).dedup).insertionSort (· ≤ ·)
  days.map (fun d =>
    let g := rows.filter (fun r => r.ts.day == d)
    ⟨d, qsum (fun r => r.c4) g, g.length, qsum (fun r => r.c2) g * 1000⟩)

/-- One row of `chemicals_daily_sql`'s result. -/
structure ChemDailyRow where
  dia : Int
  quimicos : ℚ
deriving DecidableEq, Repr

/-- `chemicals_daily_sql` (dstech_app.py lines 406–414): in-window
`Rel_Quimico` rows grouped by day; per day `SUM(Q1+...+Q5)`. -/
def chemicalsDailyQuery (quimico : List QuimicoRow) (s eEx : DT) : List ChemDailyRow :=
  let rows := quimico.filter (fun r => inWindow s eEx r.ts)
  let days := ((rows.map (fun r => r.ts.day)).dedup).insertionSort (· ≤ ·)
  days.map (fun d =>
    let g := rows.filter (fun r => r.ts.day == d)
    ⟨d, qsum (fun r => r.q1 + r.q2 + r.q3 + r.q4 + r.q5) g⟩)

/-- One row of the merged water/chemicals daily table.  `none` models a
pandas `NaN` introduced by the outer merge for a day present in only one
of the two source tables. -/
structure WaterChemRow where
  dia : Int
  kg : Option ℚ
  ciclos : Option ℕ
  agua_litros : Option ℚ
  quimicos : Option ℚ
  agua_por_kg : Option ℚ
  quimicos_por_kg : Option ℚ
deriving DecidableEq, Repr

/-- The per-day derived-ratio lambda of `build_report_datasets`
(dstech_app.py lines 421–426):
`numer/denom if (pd.notnull(kg) and kg not in [0, 0.0]) else 0.0`.
A `NaN` (`none`) or zero denominator yields `0.0`; a present nonzero
denominator under a `NaN` numerator propagates the `NaN`. -/
def ratioOrZero (numer denom : Option ℚ) : Option ℚ :=
  match denom with
  | none => some 0
  | some k =>
      if k = 0 then some 0
      else
        match numer with
        | none => none
        | some a => some (a / k)

/-- `pd.merge(water, chem, on='dia', how='outer').sort_values('dia')`
followed by the two derived per-kg columns. -/
def mergeWaterChem (w : List WaterDailyRow) (c : List ChemDailyRow) :
    List WaterChemRow :=
  let days := ((w.map (fun r => r.dia) ++ c.map (fun r => r.dia)).dedup).insertionSort (· ≤ ·)
  days.map (fun d =>
    let wo := w.find? (fun r => r.dia == d)
    let co := c.find? (fun r => r.dia == d)
    let kg := wo.map (fun r => r.kg)
    let agua := wo.map (fun r => r.agua_litros)
    let qm := co.map (fun r => r.quimicos)
    { dia := d
      kg := kg
      ciclos := wo.map (fun r => r.ciclos)
      agua_litros := agua
      quimicos := qm
      agua_por_kg := ratioOrZero agua kg
      quimicos_por_kg := ratioOrZero qm kg })

/-- One row of `alarms_daily_sql`'s result. -/
structure AlarmsDailyRow where
  dia : Int
  alarmes : ℕ
deriving DecidableEq, Repr

/-- `alarms_daily_sql` (dstech_app.py lines 429–437): in-window
`ALARMHISTORY` rows grouped by `DATE("Al_Start_Time")`, counted. -/
def alarmsDailyQuery (alarms : List AlarmRow) (s eEx : DT) : List AlarmsDailyRow :=
  let rows := alarms.filter (fun r => inWindow s eEx r.startTime)
  let days := ((rows.map (fun r => r.startTime.day)).dedup).insertionSort (· ≤ ·)
  days.map (fun d => ⟨d, (rows.filter (fun r => r.startTime.day == d)).length⟩)

/-- The dictionary returned by `build_report_datasets`. -/
structure ReportDatasets where
  summary : ExecReport
  production_by_client : List ClientRow
  daily_production : List DailyProdRow
  water_chemicals_daily : List WaterChemRow
  alarms_daily : List AlarmsDailyRow
deriving Repr

/-- `build_report_datasets(start_dt, end_dt)` (dstech_app.py
lines 347–455): floors the exclusive end to midnight, obtains the summary
from `generate_executive_report`, and independently runs the per-client,
per-day, water/chemical and alarm queries.  Each query failure is
absorbed by `execute_query` into an empty table; the builder itself is
total and always returns all five components. -/
def buildReportDatasets (db : Database) (env : QueryEnv) (start_dt end_dt : DT) :
    ReportDatasets :=
  let eEx := buildEndExclusive end_dt
  let summary := generateExecutiveReport db env start_dt end_dt
  let prodClient :=
    if env.prodClientFail then [] else
      productionByClient db.relCarga db.clientAlias start_dt eEx
  let dailyProd :=
    if env.dailyProdFail then [] else dailyProduction db.relCarga start_dt eEx
  let waterD :=
    if env.waterDailyFail then [] else waterDailyQuery db.relDiario start_dt eEx
  let chemD :=
    if env.chemDailyFail then [] else chemicalsDailyQuery db.relQuimico start_dt eEx
  let alarmsD :=
    if env.alarmsDailyFail then [] else alarmsDailyQuery db.alarmHistory start_dt eEx
  { summary := summary
    production_by_client := prodClient
    daily_production := dailyProd
    water_chemicals_daily := mergeWaterChem waterD chemD
    alarms_daily := alarmsD }

/-! ### Generic list lemmas used by the proofs -/

theorem qsum_nil {α : Type} (f : α → ℚ) : qsum f [] = 0 := rfl

theorem qsum_cons {α : Type} (f : α → ℚ) (r : α) (l : List α) :
    qsum f (r :: l) = f r + qsum f l := by
  simp [qsum]

theorem qsum_add {α : Type} (f g : α → ℚ) (l : List α) :
    qsum (fun r => f r + g r) l = qsum f l + qsum g l := by
  simp [qsum, List.sum_map_add]

theorem qsum_nonneg {α : Type} (f : α → ℚ) (l : List α)
    (h : ∀ r ∈ l, 0 ≤ f r) : 0 ≤ qsum f l := by
  refine List.sum_nonneg ?_
  intro x hx
  obtain ⟨r, hr, rfl⟩ := List.mem_map.mp hx
  exact h r hr

/-- Summing `f` over a duplicate-free day list, after adding `x` to the
term of the one day equal to `a`, adds `x` to the total. -/
theorem sum_map_beq_ite (x : ℚ) (a : Int) :
    ∀ (days : List Int) (f : Int → ℚ), days.Nodup → a ∈ days →
      (days.map (fun d => if (a == d) = true then x + f d else f d)).sum =
        x + (days.map f).sum := by
  intro days
  induction days with
  | nil => intro f _ h; cases h
  | cons d ds ih =>
      intro f hnd hmem
      rw [List.nodup_cons] at hnd
      rcases List.mem_cons.mp hmem with h | h
      · subst h
        have hcongr : ∀ d' ∈ ds,
            (if (a == d') = true then x + f d' else f d') = f d' := by
          intro d' hd'
          have hne : a ≠ d' := fun he => hnd.1 (he ▸ hd')
          rw [if_neg (by simp [hne])]
        simp only [List.map_cons, List.sum_cons, beq_self_eq_true, if_true,
          List.map_congr_left hcongr]
        ring
      · have hne : a ≠ d := fun he => hnd.1 (he ▸ h)
        simp only [List.map_cons, List.sum_cons]
        rw [if_neg (by simp [hne]), ih f hnd.2 h]
        ring

/-- Partitioning a list by day and summing the per-day sums over any
duplicate-free day list that covers every row recovers the total sum. -/
theorem sum_fiberwise_by_day {α : Type} (dayOf : α → Int) (g : α → ℚ) :
    ∀ (l : List α) (days : List Int), days.Nodup →
      (∀ r ∈ l, dayOf r ∈ days) →
      (days.map (fun d => qsum g (l.filter (fun r => dayOf r == d)))).sum =
        qsum g l := by
  intro l
  induction l with
  | nil =>
      intro days _ _
      simp [qsum]
  | cons r l ih =>
      intro days hnd hmem
      have hr : dayOf r ∈ days := hmem r (List.mem_cons_self r l)
      have hstep : ∀ d ∈ days,
          qsum g ((r :: l).filter (fun q => dayOf q == d)) =
            (if (dayOf r == d) = true
             then g r + qsum g (l.filter (fun q => dayOf q == d))
             else qsum g (l.filter (fun q => dayOf q == d))) := by
        intro d _
        rw [List.filter_cons]
        split
        · rw [qsum_cons]
        · rfl
      rw [List.map_congr_left hstep,
        sum_map_beq_ite (g r) (dayOf r) days _ hnd hr,
        ih days hnd (fun q hq => hmem q (List.mem_cons_of_mem r hq)), qsum_cons]

/-! ### Shared concrete inputs used by witnesses and counterexamples -/

/-- Midnight of day `d`. -/
def mid (d : Int) : DT := ⟨d, 0⟩

/-- The empty database. -/
def dbEmpty : Database := ⟨[], [], [], [], [], []⟩

/-- A `Rel_Diario` row at midnight of day 0 carrying only minutes:
downtime `c0` and production time `c1`. -/
def minutesRow (c0 c1 : ℚ) : DiarioRow := ⟨mid 0, c0, c1, 0, 0, 0⟩

/-- A database whose only content is one `Rel_Quimico` row on day 0
(15 units of chemicals across `Q1..Q5`), so the merged daily table has a
day with chemicals but no water/production row. -/
def dbQuimOnly : Database := ⟨[], [], [], [⟨mid 0, 1, 2, 3, 4, 5, 0, 0, 0, 0⟩], [], []⟩

/-- Rows of the merged daily table obey the zero-denominator policy: a
missing (`NaN`) or zero kilogram denominator forces both derived per-kg
columns to `0.0`. -/
theorem mergeWaterChem_zero_den (w : List WaterDailyRow) (c : List ChemDailyRow)
    (row : WaterChemRow) (hrow : row ∈ mergeWaterChem w c)
    (hkg : row.kg = some 0 ∨ row.kg = none) :
    row.agua_por_kg = some 0 ∧ row.quimicos_por_kg = some 0 := by
  simp only [mergeWaterChem] at hrow
  obtain ⟨d, _, rfl⟩ := List.mem_map.mp hrow
  dsimp only at hkg ⊢
  rcases hkg with h | h <;> rw [h] <;> simp [ratioOrZero]

/-- **C1.** For every aggregation window and every derived ratio
(weight-per-cycle, water-per-kg, chemical-per-kg, daily average,
efficiency) of the executive report, the per-day report table, and the
operational KPI queries, a denominator that aggregates to zero yields
the ratio `0.0` — over total rational arithmetic, so no exception, `NaN`
or infinity can arise — even when the numerator is nonzero. -/
theorem C1_zero_denominator_policy :
    (∀ db env s e, (generateExecutiveReport db env s e).period_cycles = 0 →
        (generateExecutiveReport db env s e).avg_weight = 0)
  ∧ (∀ db env s e, (generateExecutiveReport db env s e).period_production = 0 →
        (generateExecutiveReport db env s e).water_per_kg = 0 ∧
        (generateExecutiveReport db env s e).chemicals_per_kg = 0)
  ∧ (∀ db env s e, (generateExecutiveReport db env s e).period_days ≤ 0 →
        (generateExecutiveReport db env s e).daily_avg = 0)
  ∧ (∀ db env s e row,
        row ∈ (buildReportDatasets db env s e).water_chemicals_daily →
        (row.kg = some 0 ∨ row.kg = none) →
        row.agua_por_kg = some 0 ∧ row.quimicos_por_kg = some 0)
  ∧ (∀ diario s e cf,
        qsum (fun r => r.c1 + r.c0) (eficienciaRows diario s e cf) = 0 →
        eficienciaMedia diario s e cf = 0)
  ∧ (∀ diario s e, (stsPeriodoQuery diario s e).batchs = 0 →
        (stsPeriodoQuery diario s e).peso_medio = 0)
  ∧ (∀ diario s e, (stsPeriodoQuery diario s e).quilos = 0 →
        (stsPeriodoQuery diario s e).litros_por_kg = 0)
  ∧ (∀ diario s e cf, (productionPeriodoQuery diario s e cf).1 = 0 →
        (waterPeriodoQuery diario s e cf).2 = 0)
  ∧ (∀ sts d, (stsLastOfDayKpis sts d).batchs = 0 →
        (stsLastOfDayKpis sts d).peso_medio = 0)
  ∧ (∀ sts d, (stsLastOfDayKpis sts d).quilos = 0 →
        (stsLastOfDayKpis sts d).litros_por_kg = 0) := by
  refine ⟨?_, ?_, ?_, ?_, ?_, ?_, ?_, ?_, ?_, ?_⟩
  · intro db env s e h
    have h' : execTotalCycles db env s e = 0 := h
    simp only [generateExecutiveReport]
    simp [h']
  · intro db env s e h
    have h' : execTotalKg db env s e = 0 := h
    simp only [generateExecutiveReport]
    simp [h']
  · intro db env s e h
    have h' : execDaysDiff s e ≤ 0 := h
    simp only [generateExecutiveReport]
    rw [if_neg (by omega)]
  · intro db env s e row hrow hkg
    exact mergeWaterChem_zero_den _ _ row hrow hkg
  · intro diario s e cf h
    simp only [eficienciaMedia]
    rw [h]
    simp
  · intro diario s e h
    simp only [stsPeriodoQuery] at h ⊢
    rw [h]
    simp
  · intro diario s e h
    simp only [stsPeriodoQuery] at h ⊢
    rw [h]
    simp
  · intro diario s e cf h
    simp only [productionPeriodoQuery] at h
    simp only [waterPeriodoQuery]
    rw [h]
    simp
  · intro sts d h
    simp only [stsLastOfDayKpis] at h ⊢
    cases hopt : lastStsOfDay sts d with
    | none => simp [hopt]
    | some r =>
        rw [hopt] at h
        dsimp only at h ⊢
        rw [h]
        simp
  · intro sts d h
    simp only [stsLastOfDayKpis] at h ⊢
    cases hopt : lastStsOfDay sts d with
    | none => simp [hopt]
    | some r =>
        rw [hopt] at h
        dsimp only at h ⊢
        rw [h]
        simp

/-- The merged-table row produced by `dbQuimOnly`: chemicals present
(nonzero numerator), production kilograms absent. -/
def wcRowQuimOnly : WaterChemRow := ⟨0, none, none, none, some 15, some 0, some 0⟩

/-- Witness for C1 at concrete inputs: empty sources give zero
denominators and every ratio evaluates to `0`, including a per-day row
with a nonzero chemical numerator over an absent kilogram denominator. -/
theorem C1_zero_denominator_policy_witness :
    ((generateExecutiveReport dbEmpty envOk (mid 0) (mid 0)).period_cycles = 0 ∧
      (generateExecutiveReport dbEmpty envOk (mid 0) (mid 0)).avg_weight = 0)
  ∧ ((generateExecutiveReport dbEmpty envOk (mid 0) (mid 0)).period_production = 0 ∧
      (generateExecutiveReport dbEmpty envOk (mid 0) (mid 0)).water_per_kg = 0 ∧
      (generateExecutiveReport dbEmpty envOk (mid 0) (mid 0)).chemicals_per_kg = 0)
  ∧ ((generateExecutiveReport dbEmpty envOk (mid 0) (mid (-1))).period_days ≤ 0 ∧
      (generateExecutiveReport dbEmpty envOk (mid 0) (mid (-1))).daily_avg = 0)
  ∧ (wcRowQuimOnly ∈
        (buildReportDatasets dbQuimOnly envOk (mid 0) (mid 6)).water_chemicals_daily ∧
      wcRowQuimOnly.quimicos = some 15 ∧
      wcRowQuimOnly.agua_por_kg = some 0 ∧ wcRowQuimOnly.quimicos_por_kg = some 0)
  ∧ (qsum (fun r => r.c1 + r.c0) (eficienciaRows [] (mid 0) (mid 6) none) = 0 ∧
      eficienciaMedia [] (mid 0) (mid 6) none = 0)
  ∧ ((stsPeriodoQuery [] (mid 0) (mid 6)).batchs = 0 ∧
      (stsPeriodoQuery [] (mid 0) (mid 6)).peso_medio = 0)
  ∧ ((stsPeriodoQuery [] (mid 0) (mid 6)).quilos = 0 ∧
      (stsPeriodoQuery [] (mid 0) (mid 6)).litros_por_kg = 0)
  ∧ ((productionPeriodoQuery [] (mid 0) (mid 6) none).1 = 0 ∧
      (waterPeriodoQuery [] (mid 0) (mid 6) none).2 = 0)
  ∧ ((stsLastOfDayKpis [] 0).batchs = 0 ∧ (stsLastOfDayKpis [] 0).peso_medio = 0)
  ∧ ((stsLastOfDayKpis [] 0).quilos = 0 ∧
      (stsLastOfDayKpis [] 0).litros_por_kg = 0) := by
  have htab : (buildReportDatasets dbQuimOnly envOk (mid 0) (mid 6)).water_chemicals_daily
      = [wcRowQuimOnly] := by
    norm_num [buildReportDatasets, buildEndExclusive, waterDailyQuery, chemicalsDailyQuery,
      mergeWaterChem, ratioOrZero, inWindow, DT.toQ, mid, qsum, List.dedup_cons_of_mem,
      List.dedup_cons_of_not_mem, List.dedup_nil, List.insertionSort, List.orderedInsert,
      List.find?, envOk, dbQuimOnly, wcRowQuimOnly]
  have hmem : wcRowQuimOnly ∈
      (buildReportDatasets dbQuimOnly envOk (mid 0) (mid 6)).water_chemicals_daily := by
    rw [htab]
    exact List.mem_singleton_self _
  refine ⟨⟨by decide, C1_zero_denominator_policy.1 dbEmpty envOk (mid 0) (mid 0) (by decide)⟩,
    ⟨by decide, C1_zero_denominator_policy.2.1 dbEmpty envOk (mid 0) (mid 0) (by decide)⟩,
    ⟨by decide, C1_zero_denominator_policy.2.2.1 dbEmpty envOk (mid 0) (mid (-1)) (by decide)⟩,
    ⟨hmem, by decide,
      C1_zero_denominator_policy.2.2.2.1 dbQuimOnly envOk (mid 0) (mid 6) wcRowQuimOnly
        hmem (Or.inr (by decide))⟩,
    ⟨by decide, C1_zero_denominator_policy.2.2.2.2.1 [] (mid 0) (mid 6) none (by decide)⟩,
    ⟨by decide, C1_zero_denominator_policy.2.2.2.2.2.1 [] (mid 0) (mid 6) (by decide)⟩,
    ⟨by decide, C1_zero_denominator_policy.2.2.2.2.2.2.1 [] (mid 0) (mid 6) (by decide)⟩,
    ⟨by decide, C1_zero_denominator_policy.2.2.2.2.2.2.2.1 [] (mid 0) (mid 6) none (by decide)⟩,
    ⟨by decide, C1_zero_denominator_policy.2.2.2.2.2.2.2.2.1 [] 0 (by decide)⟩,
    ⟨by decide, C1_zero_denominator_policy.2.2.2.2.2.2.2.2.2 [] 0 (by decide)⟩⟩

/-- **C2 (counterexample).** The claim fails on the code: the efficiency
query filters `"C1" > 0`, so the window containing exactly the records
`(production_time=10, downtime=0)` and `(production_time=0, downtime=10)`
yields `100.0`, not the claimed `50.0` (the zero-production record is
discarded); and `get_dashboard_summary`'s `avg_efficiency` is a mean of
per-record ratios: on records `(100,0)` and `(10,10)` it gives `75.0`
where the summed-minutes formula gives `91.7`. -/
theorem C2_efficiency_counterexample :
    eficienciaMedia [minutesRow 0 10, minutesRow 10 0] (mid 0) (mid 6) none = 100
  ∧ (100 : ℚ) ≠ 50
  ∧ dashboardAvgEfficiency [minutesRow 0 100, minutesRow 10 10] (fun _ => true) = 75
  ∧ roundTo 1 ((qsum (fun r => r.c1) [minutesRow 0 100, minutesRow 10 10] /
        qsum (fun r => r.c1 + r.c0) [minutesRow 0 100, minutesRow 10 10]) * 100) = 917 / 10
  ∧ (75 : ℚ) ≠ 917 / 10 := by
  refine ⟨?_, by norm_num, ?_, ?_, by norm_num⟩
  · norm_num [eficienciaMedia, eficienciaRows, qsum, roundTo, round_eq, periodFilter,
      DT.toQ, mid, minutesRow, clientOk]
  · norm_num [dashboardAvgEfficiency, qsum, roundTo, round_eq, minutesRow, beq_iff_eq]
  · norm_num [qsum, roundTo, round_eq, minutesRow]

/-- **C2 (amended).** In `get_operational_kpis` the efficiency KPI is a
ratio of summed minutes over the window's qualifying records (those with
`production_time > 0` and `downtime ≥ 0`), never a mean of per-record
ratios: replacing the qualifying records by the single record carrying
their summed minutes leaves the KPI unchanged.  (A mean of per-record
ratios, as `get_dashboard_summary` computes, does not have this
property.) -/
theorem C2_efficiency_sum_not_mean (diario : List DiarioRow) (s e : DT) (cf : Option Int)
    (hse : s.toQ ≤ e.toQ)
    (hpos : 0 < qsum (fun r => r.c1) (eficienciaRows diario s e cf)) :
    eficienciaMedia diario s e cf =
      eficienciaMedia
        [⟨s, qsum (fun r => r.c0) (eficienciaRows diario s e cf),
          qsum (fun r => r.c1) (eficienciaRows diario s e cf), 0, 0, cf.getD 0⟩]
        s e cf := by
  have hBnn : 0 ≤ qsum (fun r => r.c0) (eficienciaRows diario s e cf) := by
    refine qsum_nonneg _ _ ?_
    intro r hr
    have hp := (List.mem_filter.mp hr).2
    simp only [Bool.and_eq_true, decide_eq_true_eq] at hp
    exact hp.1.2
  set A := qsum (fun r => r.c1) (eficienciaRows diario s e cf) with hA
  set B := qsum (fun r => r.c0) (eficienciaRows diario s e cf) with hB
  have hrow : eficienciaRows [⟨s, B, A, 0, 0, cf.getD 0⟩] s e cf =
      [(⟨s, B, A, 0, 0, cf.getD 0⟩ : DiarioRow)] := by
    simp only [eficienciaRows, List.filter, periodFilter]
    have hcl : clientOk cf ⟨s, B, A, 0, 0, cf.getD 0⟩ = true := by
      cases cf <;> simp [clientOk]
    simp [hse, hpos, hBnn, hcl]
  have hq : qsum (fun r => r.c1 + r.c0) (eficienciaRows diario s e cf) = A + B :=
    qsum_add _ _ _
  simp only [eficienciaMedia, hrow, hq, qsum_cons, qsum_nil, add_zero]

/-- Witness for C2's amended theorem at the spec's asymmetric-weight
case: records `(90,10)` and `(10,90)` qualify, collapse to their summed
minutes, and evaluate to efficiency `50.0`. -/
theorem C2_efficiency_sum_not_mean_witness :
    (mid 0).toQ ≤ (mid 6).toQ
  ∧ 0 < qsum (fun r => r.c1)
      (eficienciaRows [minutesRow 10 90, minutesRow 90 10] (mid 0) (mid 6) none)
  ∧ eficienciaMedia [minutesRow 10 90, minutesRow 90 10] (mid 0) (mid 6) none =
      eficienciaMedia
        [⟨mid 0,
          qsum (fun r => r.c0)
            (eficienciaRows [minutesRow 10 90, minutesRow 90 10] (mid 0) (mid 6) none),
          qsum (fun r => r.c1)
            (eficienciaRows [minutesRow 10 90, minutesRow 90 10] (mid 0) (mid 6) none),
          0, 0, Option.getD none 0⟩]
        (mid 0) (mid 6) none
  ∧ eficienciaMedia [minutesRow 10 90, minutesRow 90 10] (mid 0) (mid 6) none = 50 := by
  have h1 : (mid 0).toQ ≤ (mid 6).toQ := by norm_num [DT.toQ, mid]
  have h2 : 0 < qsum (fun r => r.c1)
      (eficienciaRows [minutesRow 10 90, minutesRow 90 10] (mid 0) (mid 6) none) := by
    norm_num [eficienciaRows, qsum, periodFilter, DT.toQ, mid, minutesRow, clientOk]
  refine ⟨h1, h2,
    C2_efficiency_sum_not_mean [minutesRow 10 90, minutesRow 90 10] (mid 0) (mid 6) none h1 h2,
    ?_⟩
  norm_num [eficienciaMedia, eficienciaRows, qsum, roundTo, round_eq, periodFilter,
    DT.toQ, mid, minutesRow, clientOk]

/-- A cumulative-status source with a row for today (day `0`, cumulative
kg `5`) and a row stamped one day later (day `1`, cumulative kg `9`). -/
def sts3 : List StsRow := [⟨mid 0, 0, 0, 5⟩, ⟨mid 1, 0, 0, 9⟩]

/-- **C3 (counterexample).** The claim fails on the code: even when
`Sts_Dados` has a row stamped with today's date, the main `_hoje`
cumulative KPIs are scoped by `latest_date = MAX("Time_Stamp"::date)`
over the whole source, not by today.  With a today row (kg `5`) and a
row stamped one day later (kg `9`), the resolver returns latest date `1`
for them and the KPI reads `9`, not today's `5` (only the
executive-summary date is switched to today). -/
theorem C3_resolver_counterexample :
    hasTodayData sts3 0 = true
  ∧ (resolveStsDates sts3 0 false).1 = 1
  ∧ (1 : Int) ≠ 0
  ∧ (stsLastOfDayKpis sts3 (resolveStsDates sts3 0 false).1).quilos = 9
  ∧ (stsLastOfDayKpis sts3 0).quilos = 5
  ∧ (9 : ℚ) ≠ 5 := by
  have h : (resolveStsDates sts3 0 false).1 = 1 := by decide
  refine ⟨by decide, h, by decide, ?_, by decide, by decide⟩
  rw [h]
  decide

/-- **C3 (amended).** The resolver behaves as claimed for the
executive-summary date, the empty source, the no-today fallback and the
failure mode; and when today has a row it scopes *all* cumulative-status
dates to today provided no row is stamped after today (the main `_hoje`
KPIs always use the source's maximum date): a query failure degrades to
literal today, never a hard failure. -/
theorem C3_today_vs_latest_resolver (sts : List StsRow) (today : Int) :
    (resolveStsDates sts today true = (today, today))
  ∧ (sts = [] → resolveStsDates sts today false = (today, today))
  ∧ (hasTodayData sts today = true → (resolveStsDates sts today false).2 = today)
  ∧ (hasTodayData sts today = false →
      resolveStsDates sts today false =
        ((maxStsDate sts).getD today, (maxStsDate sts).getD today))
  ∧ (hasTodayData sts today = true → (∀ r ∈ sts, r.ts.day ≤ today) →
      resolveStsDates sts today false = (today, today)) := by
  refine ⟨by simp [resolveStsDates], ?_, ?_, ?_, ?_⟩
  · intro h
    subst h
    simp only [resolveStsDates, hasTodayData, maxStsDate, List.map_nil,
      List.maximum_nil, List.any_nil, if_false, Bool.false_eq_true]
    rfl
  · intro h
    simp [resolveStsDates, h]
  · intro h
    simp [resolveStsDates, h]
  · intro h hall
    have hx := List.any_eq_true.mp h
    obtain ⟨r0, hr0, hr0d⟩ := hx
    have hr0d' : r0.ts.day = today := by simpa using hr0d
    have hmm : today ∈ sts.map (fun r => r.ts.day) :=
      hr0d' ▸ List.mem_map_of_mem _ hr0
    cases hmax : (sts.map (fun r => r.ts.day)).maximum with
    | bot =>
        exfalso
        rw [List.maximum_eq_bot] at hmax
        rw [hmax] at hmm
        cases hmm
    | coe m =>
        have h1 : today ≤ m := List.le_maximum_of_mem hmm hmax
        obtain ⟨r1, hr1, hr1d⟩ := List.mem_map.mp (List.maximum_mem hmax)
        have h2 : m ≤ today := hr1d ▸ hall r1 hr1
        have hm : m = today := le_antisymm h2 h1
        simp [resolveStsDates, h, maxStsDate, hmax, hm]
        rfl

/-- The cumulative-status source with one row, stamped today. -/
def stsTodayOnly : List StsRow := [⟨mid 0, 0, 0, 5⟩]

/-- Witness for C3's amended theorem: a source whose rows all lie on or
before today, with a today row, resolves both dates to today; and the
failure mode also resolves to today. -/
theorem C3_today_vs_latest_resolver_witness :
    hasTodayData stsTodayOnly 0 = true
  ∧ (∀ r ∈ stsTodayOnly, r.ts.day ≤ 0)
  ∧ resolveStsDates stsTodayOnly 0 false = (0, 0)
  ∧ resolveStsDates stsTodayOnly 0 true = (0, 0) := by
  refine ⟨by decide, by decide,
    (C3_today_vs_latest_resolver stsTodayOnly 0).2.2.2.2 (by decide) (by decide),
    (C3_today_vs_latest_resolver stsTodayOnly 0).1⟩

/-- `Sts_Dados` with two cumulative polls on day 0: water 1 then 2 m³,
cycles 3 then 5, kg 10 then 20 (monotonic within the day). -/
def dbTwoPolls : Database :=
  ⟨[⟨⟨0, 1/4⟩, 1, 3, 10⟩, ⟨⟨0, 1/2⟩, 2, 5, 20⟩], [], [], [], [], []⟩

/-- **C4.** The KPI queries of `get_operational_kpis` take the last
`Sts_Dados` record of the day (`ORDER BY "Time_Stamp" DESC LIMIT 1`):
for the two-poll day they read cycles `5` and water `2000` L.  But
`generate_executive_report`'s `cycles_water_query` **sums** the
cumulative columns `D2` and `D1` across the records of the window,
reporting `3 + 5 = 8` cycles and `3000` L — double-counting every poll
but the last, contradicting the cumulative semantics of the source. -/
theorem C4_report_sums_cumulative_source :
    (generateExecutiveReport dbTwoPolls envOk (mid 0) (mid 0)).period_cycles = 8
  ∧ (generateExecutiveReport dbTwoPolls envOk (mid 0) (mid 0)).water_period = 3000
  ∧ (stsLastOfDayKpis dbTwoPolls.stsDados 0).batchs = 5
  ∧ (stsLastOfDayKpis dbTwoPolls.stsDados 0).litros = 2000
  ∧ (8 : ℤ) ≠ 5
  ∧ (3000 : ℚ) ≠ 2000 := by
  refine ⟨?_, ?_, ?_, ?_, by decide, by norm_num⟩
  · norm_num [generateExecutiveReport, execTotalCycles, execStsRows, truncToZero,
      qsum, inWindow, DT.toQ, mid, genExecEndExclusive, envOk, dbTwoPolls]
  · norm_num [generateExecutiveReport, execTotalWaterLiters, execStsRows,
      qsum, inWindow, DT.toQ, mid, genExecEndExclusive, envOk, dbTwoPolls]
  · norm_num [stsLastOfDayKpis, lastStsOfDay, List.foldl, DT.toQ, dbTwoPolls]
  · norm_num [stsLastOfDayKpis, lastStsOfDay, List.foldl, DT.toQ, dbTwoPolls]

/-- **C5 (counterexample).** The claim fails on
`generate_executive_report` (one of its cited sources): for an end date
carrying a time-of-day component (here half a day), `end_exclusive` is
`end + 1 day` with the time-of-day kept — not midnight of the following
day. -/
theorem C5_end_exclusive_counterexample :
    genExecEndExclusive ⟨0, 1/2⟩ = ⟨1, 1/2⟩
  ∧ genExecEndExclusive ⟨0, 1/2⟩ ≠ addOneDay (floorToMidnight ⟨0, 1/2⟩)
  ∧ addOneDay (floorToMidnight ⟨0, 1/2⟩) = ⟨1, 0⟩ := by
  refine ⟨rfl, ?_, rfl⟩
  intro h
  have := congrArg DT.tod h
  norm_num [genExecEndExclusive, addOneDay, floorToMidnight] at this

/-- **C5 (amended).** `build_report_datasets` normalizes exactly as
claimed: its `end_exclusive` is midnight of the end date plus one day,
regardless of the time-of-day supplied, and a single-day window with
`start = end` at midnight ends exactly one day after the start's
midnight.  `generate_executive_report`, however, merely adds one day,
which coincides with the claimed bound only when the end carries no
time-of-day component. -/
theorem C5_end_exclusive_normalization (e : DT) :
    buildEndExclusive e = addOneDay (floorToMidnight e)
  ∧ (e.tod = 0 → genExecEndExclusive e = addOneDay (floorToMidnight e))
  ∧ (e.tod = 0 → buildEndExclusive e = addOneDay e) := by
  refine ⟨rfl, ?_, ?_⟩
  · intro h
    simp [genExecEndExclusive, addOneDay, floorToMidnight, h]
  · intro h
    simp only [buildEndExclusive, addOneDay]
    rw [← h]

/-- Witness for C5's amended theorem at the midnight end date `day 5`. -/
theorem C5_end_exclusive_normalization_witness :
    (mid 5).tod = 0
  ∧ buildEndExclusive (mid 5) = addOneDay (floorToMidnight (mid 5))
  ∧ genExecEndExclusive (mid 5) = addOneDay (floorToMidnight (mid 5))
  ∧ buildEndExclusive (mid 5) = addOneDay (mid 5) := by
  refine ⟨rfl, (C5_end_exclusive_normalization (mid 5)).1,
    (C5_end_exclusive_normalization (mid 5)).2.1 rfl,
    (C5_end_exclusive_normalization (mid 5)).2.2 rfl⟩

/-- **C6.** The Report Dataset Builder is a total function that never
surfaces an error: for every database, every combination of query
failures and every window it returns a full result whose summary is the
executive report (itself total), and every sub-table whose query failed
is the empty table. -/
theorem C6_builder_never_fails (db : Database) (env : QueryEnv) (s e : DT) :
    (buildReportDatasets db env s e).summary = generateExecutiveReport db env s e
  ∧ (env.prodClientFail = true →
      (buildReportDatasets db env s e).production_by_client = [])
  ∧ (env.dailyProdFail = true →
      (buildReportDatasets db env s e).daily_production = [])
  ∧ (env.waterDailyFail = true → env.chemDailyFail = true →
      (buildReportDatasets db env s e).water_chemicals_daily = [])
  ∧ (env.alarmsDailyFail = true →
      (buildReportDatasets db env s e).alarms_daily = []) := by
  refine ⟨rfl, ?_, ?_, ?_, ?_⟩
  · intro h
    simp [buildReportDatasets, h]
  · intro h
    simp [buildReportDatasets, h]
  · intro h1 h2
    simp [buildReportDatasets, h1, h2, mergeWaterChem, List.dedup_nil]
  · intro h
    simp [buildReportDatasets, h]

/-- The environment in which every query fails. -/
def envAllFail : QueryEnv := ⟨true, true, true, true, true, true, true, true, true, true⟩

/-- Witness for C6 under total source failure: the builder still returns
the (all-zero) summary and four empty tables. -/
theorem C6_builder_never_fails_witness :
    (buildReportDatasets dbEmpty envAllFail (mid 0) (mid 6)).summary =
      generateExecutiveReport dbEmpty envAllFail (mid 0) (mid 6)
  ∧ envAllFail.prodClientFail = true
  ∧ (buildReportDatasets dbEmpty envAllFail (mid 0) (mid 6)).production_by_client = []
  ∧ (buildReportDatasets dbEmpty envAllFail (mid 0) (mid 6)).daily_production = []
  ∧ (buildReportDatasets dbEmpty envAllFail (mid 0) (mid 6)).water_chemicals_daily = []
  ∧ (buildReportDatasets dbEmpty envAllFail (mid 0) (mid 6)).alarms_daily = [] := by
  refine ⟨(C6_builder_never_fails dbEmpty envAllFail (mid 0) (mid 6)).1, rfl,
    (C6_builder_never_fails dbEmpty envAllFail (mid 0) (mid 6)).2.1 rfl,
    (C6_builder_never_fails dbEmpty envAllFail (mid 0) (mid 6)).2.2.1 rfl,
    (C6_builder_never_fails dbEmpty envAllFail (mid 0) (mid 6)).2.2.2.1 rfl rfl,
    (C6_builder_never_fails dbEmpty envAllFail (mid 0) (mid 6)).2.2.2.2 rfl⟩

/-- A per-load ledger entry (100 kg for client 1 on day 0) with an empty
consolidated-daily table: the two production sources disagree. -/
def dbCargaOnly : Database := ⟨[], [], [⟨mid 0, 1, 100, 0⟩], [], [], []⟩

/-- **C7 (counterexample).** The claim fails on the code: the
`daily_production` table sums `Rel_Carga."C2"` while the summary's
period production sums `Rel_Diario."C4"` — two different sources.  With
one 100 kg load record and an empty consolidated-daily table, the daily
table sums to `100` while the summary reports `0`. -/
theorem C7_reconciliation_counterexample :
    qsum (fun r => r.kg)
      (buildReportDatasets dbCargaOnly envOk (mid 0) (mid 0)).daily_production = 100
  ∧ (buildReportDatasets dbCargaOnly envOk (mid 0) (mid 0)).summary.period_production = 0
  ∧ (100 : ℚ) ≠ 0 := by
  refine ⟨?_, ?_, by norm_num⟩
  · norm_num [buildReportDatasets, dailyProduction, buildEndExclusive, inWindow,
      DT.toQ, mid, qsum, envOk, dbCargaOnly, List.dedup_cons_of_not_mem, List.dedup_nil,
      List.insertionSort, List.orderedInsert]
  · norm_num [buildReportDatasets, generateExecutiveReport, execTotalKg,
      genExecEndExclusive, inWindow, DT.toQ, mid, qsum, envOk, dbCargaOnly]

/-- **C7 (amended).** When the production and daily-production queries
succeed, the end date is a midnight instant, and the two sources agree
day by day inside the window (each day's `Rel_Diario."C4"` total equals
that day's `Rel_Carga."C2"` total), the sum of the per-day kilograms of
`daily_production` equals the summary's period production exactly. -/
theorem C7_daily_sums_match_summary (db : Database) (env : QueryEnv) (s e : DT)
    (hp : env.prodFail = false) (hd : env.dailyProdFail = false) (hm : e.tod = 0)
    (hday : ∀ d : Int,
      qsum (fun r => r.c4)
        ((db.relDiario.filter (fun r => inWindow s (buildEndExclusive e) r.ts)).filter
          (fun r => r.ts.day == d)) =
      qsum (fun r => r.c2)
        ((db.relCarga.filter (fun r => inWindow s (buildEndExclusive e) r.ts)).filter
          (fun r => r.ts.day == d))) :
    qsum (fun r => r.kg) (buildReportDatasets db env s e).daily_production =
      (buildReportDatasets db env s e).summary.period_production := by
  have hEE : genExecEndExclusive e = buildEndExclusive e := by
    simp [genExecEndExclusive, buildEndExclusive, hm]
  set F := db.relCarga.filter (fun r => inWindow s (buildEndExclusive e) r.ts) with hF
  set G := db.relDiario.filter (fun r => inWindow s (buildEndExclusive e) r.ts) with hG
  have hRHS : (buildReportDatasets db env s e).summary.period_production =
      qsum (fun r => r.c4) G := by
    show execTotalKg db env s e = qsum (fun r => r.c4) G
    rw [execTotalKg, hp, hEE, ← hG]
    rfl
  have hdays : ∀ days : List Int, days.Nodup → (∀ r ∈ F, r.ts.day ∈ days) →
      qsum (fun r => r.kg)
        (days.map (fun d =>
          (⟨d, (F.filter (fun r => r.ts.day == d)).length,
            qsum (fun r => r.c2) (F.filter (fun r => r.ts.day == d))⟩ : DailyProdRow))) =
      qsum (fun r => r.c2) F := by
    intro days hnd hmem
    rw [qsum, List.map_map]
    exact sum_fiberwise_by_day (fun r => r.ts.day) (fun r => r.c2) F days hnd hmem
  have hLHS : qsum (fun r => r.kg) (buildReportDatasets db env s e).daily_production =
      qsum (fun r => r.c2) F := by
    show qsum (fun r => r.kg)
        (if env.dailyProdFail = true then [] else
          dailyProduction db.relCarga s (buildEndExclusive e)) = qsum (fun r => r.c2) F
    rw [hd]
    simp only [if_false, Bool.false_eq_true, dailyProduction, ← hF]
    refine hdays _ ?_ ?_
    · exact ((List.perm_insertionSort _ _).nodup_iff).mpr (List.nodup_dedup _)
    · intro r hr
      exact ((List.perm_insertionSort _ _).mem_iff).mpr
        (List.mem_dedup.mpr (List.mem_map_of_mem _ hr))
  set D := ((F.map fun r => r.ts.day) ++ (G.map fun r => r.ts.day)).dedup with hD
  have hDnd : D.Nodup := List.nodup_dedup _
  have h1 : qsum (fun r => r.c2) F =
      (D.map (fun d => qsum (fun r => r.c2) (F.filter (fun r => r.ts.day == d)))).sum := by
    refine (sum_fiberwise_by_day _ _ F D hDnd ?_).symm
    intro r hr
    exact List.mem_dedup.mpr (List.mem_append_left _ (List.mem_map_of_mem _ hr))
  have h2 : qsum (fun r => r.c4) G =
      (D.map (fun d => qsum (fun r => r.c4) (G.filter (fun r => r.ts.day == d)))).sum := by
    refine (sum_fiberwise_by_day _ _ G D hDnd ?_).symm
    intro r hr
    exact List.mem_dedup.mpr (List.mem_append_right _ (List.mem_map_of_mem _ hr))
  rw [hLHS, hRHS, h1, h2]
  exact congrArg List.sum (List.map_congr_left fun d _ => (hday d).symm)

/-- A database in which the consolidated-daily table agrees with the
per-load ledger: one 100 kg load for client 7 on day 0 and one
consolidated row with 100 kg production on day 0. -/
def dbConsistent : Database :=
  ⟨[], [⟨mid 0, 0, 0, 0, 100, 7⟩], [⟨mid 0, 7, 100, 0⟩], [], [], []⟩

/-- Witness for C7's amended theorem: with day-by-day consistent sources
on a midnight-bounded window the daily table's kilogram sum equals the
summary's period production. -/
theorem C7_daily_sums_match_summary_witness :
    envOk.prodFail = false
  ∧ envOk.dailyProdFail = false
  ∧ (mid 0).tod = 0
  ∧ (∀ d : Int,
      qsum (fun r => r.c4)
        ((dbConsistent.relDiario.filter
          (fun r => inWindow (mid 0) (buildEndExclusive (mid 0)) r.ts)).filter
          (fun r => r.ts.day == d)) =
      qsum (fun r => r.c2)
        ((dbConsistent.relCarga.filter
          (fun r => inWindow (mid 0) (buildEndExclusive (mid 0)) r.ts)).filter
          (fun r => r.ts.day == d)))
  ∧ qsum (fun r => r.kg)
      (buildReportDatasets dbConsistent envOk (mid 0) (mid 0)).daily_production =
      (buildReportDatasets dbConsistent envOk (mid 0) (mid 0)).summary.period_production := by
  have hdia : dbConsistent.relDiario.filter
      (fun r => inWindow (mid 0) (buildEndExclusive (mid 0)) r.ts) =
      [⟨mid 0, 0, 0, 0, 100, 7⟩] := by
    norm_num [dbConsistent, inWindow, DT.toQ, mid, buildEndExclusive]
  have hcar : dbConsistent.relCarga.filter
      (fun r => inWindow (mid 0) (buildEndExclusive (mid 0)) r.ts) =
      [⟨mid 0, 7, 100, 0⟩] := by
    norm_num [dbConsistent, inWindow, DT.toQ, mid, buildEndExclusive]
  have hday : ∀ d : Int,
      qsum (fun r => r.c4)
        ((dbConsistent.relDiario.filter
          (fun r => inWindow (mid 0) (buildEndExclusive (mid 0)) r.ts)).filter
          (fun r => r.ts.day == d)) =
      qsum (fun r => r.c2)
        ((dbConsistent.relCarga.filter
          (fun r => inWindow (mid 0) (buildEndExclusive (mid 0)) r.ts)).filter
          (fun r => r.ts.day == d)) := by
    intro d
    rw [hdia, hcar]
    by_cases hd0 : (mid 0).day = d
    · have hb : ((mid 0).day == d) = true := beq_iff_eq.mpr hd0
      simp [List.filter, hb, qsum]
    · have hb : ((mid 0).day == d) = false := beq_eq_false_iff_ne.mpr hd0
      simp [List.filter, hb, qsum]
  exact ⟨rfl, rfl, rfl, hday,
    C7_daily_sums_match_summary dbConsistent envOk (mid 0) (mid 0) rfl rfl rfl hday⟩

/-- The spec's end-to-end scenario loads: three `Rel_Carga` records for
unaliased client 7 inside the seven-day window starting at day 0:
100 kg/50 L, 200 kg/80 L, 0 kg/0 L. -/
def cargaClient7 : List CargaRow :=
  [⟨mid 0, 7, 100, 50⟩, ⟨mid 1, 7, 200, 80⟩, ⟨mid 2, 7, 0, 0⟩]

/-- **C8 (counterexample).** The claim fails on the code in two places:
the unaliased display name is `'Cliente ' || id` (Portuguese), so the
row reads `"Cliente 7"`, not `"Client 7"`; and the average weight is
`AVG(NULLIF("C2", 0))`, which excludes the 0 kg load, giving
`(100 + 200) / 2 = 150`, not `300 / 3 = 100`. -/
theorem C8_scenario_counterexample :
    productionByClient cargaClient7 [] (mid 0) (mid 7) =
      [⟨7, "Cliente 7", 3, 300, 150⟩]
  ∧ "Cliente 7" ≠ "Client 7"
  ∧ (150 : ℚ) ≠ 100 := by
  refine ⟨?_, by decide, by norm_num⟩
  norm_num [productionByClient, clientDisplay, lookupAlias, inWindow, DT.toQ, mid,
    qsum, cargaClient7, List.dedup_cons_of_mem, List.dedup_cons_of_not_mem,
    List.dedup_nil, List.insertionSort, List.orderedInsert, List.find?, beq_iff_eq]
  rfl

/-- A database realizing the scenario with the summary's sources
populated consistently: `Sts_Dados` water totalling 130 m³ and
`Rel_Diario` production totalling 300 kg inside the window. -/
def dbScenario : Database :=
  ⟨[⟨mid 0, 130, 3, 300⟩], [⟨mid 0, 0, 0, 0, 300, 7⟩], cargaClient7, [], [], []⟩

/-- **C8 (amended).** For the seven-day window the scenario's
`production_by_client` yields exactly one row
`{client: "Cliente 7", total_kg: 300, total_cargas: 3, avg_weight: 150}`
(the average excludes zero-kg loads), and the summary's water-per-kg —
computed from the `Sts_Dados` water sum and the `Rel_Diario` production
sum, not from the load ledger — equals `(130 * 1000) / 300` rounded to
two decimals, i.e. `433.33`. -/
theorem C8_scenario_amended :
    productionByClient cargaClient7 [] (mid 0) (mid 7) =
      [⟨7, "Cliente 7", 3, 300, 150⟩]
  ∧ (generateExecutiveReport dbScenario envOk (mid 0) (mid 6)).water_per_kg =
      43333 / 100 := by
  constructor
  · norm_num [productionByClient, clientDisplay, lookupAlias, inWindow, DT.toQ, mid,
      qsum, cargaClient7, List.dedup_cons_of_mem, List.dedup_cons_of_not_mem,
      List.dedup_nil, List.insertionSort, List.orderedInsert, List.find?, beq_iff_eq]
    rfl
  · norm_num [generateExecutiveReport, execTotalKg, execStsRows, execTotalWaterLiters,
      qsum, inWindow, DT.toQ, mid, genExecEndExclusive, envOk, dbScenario,
      roundTo, round_eq]

/-- **C9 (counterexample).** The claim fails on the code's exact string:
the deterministic fallback is `'Cliente ' || id` (Portuguese spelling in
both `build_report_datasets` and `get_client_performance_comparison`),
so the unmapped id 42 resolves to `"Cliente 42"`, not `"Client 42"`. -/
theorem C9_alias_fallback_counterexample :
    clientDisplay [] 42 = "Cliente 42"
  ∧ "Cliente 42" ≠ "Client 42"
  ∧ clientPerformanceName 42 = "Cliente 42" := by
  exact ⟨rfl, by decide, rfl⟩

/-- **C9 (amended).** For every client id with no stored alias the
resolved display name is exactly the string `"Cliente "` followed by the
decimal id — a pure function of the id, hence deterministic across
runs — and `get_client_performance_comparison` builds the same string
unconditionally. -/
theorem C9_alias_fallback_deterministic (aliases : List (Int × String)) (id : Int)
    (h : lookupAlias aliases id = none) :
    clientDisplay aliases id = "Cliente " ++ toString id
  ∧ clientPerformanceName id = "Cliente " ++ toString id := by
  refine ⟨?_, rfl⟩
  rw [clientDisplay, h]
  rfl

/-- Witness for C9's amended theorem at the unmapped id 42. -/
theorem C9_alias_fallback_deterministic_witness :
    lookupAlias [] 42 = none
  ∧ clientDisplay [] 42 = "Cliente " ++ toString (42 : Int)
  ∧ clientPerformanceName 42 = "Cliente " ++ toString (42 : Int) := by
  exact ⟨rfl, (C9_alias_fallback_deterministic [] 42 rfl).1,
    (C9_alias_fallback_deterministic [] 42 rfl).2⟩

/-- **C10.** All three period queries of `get_operational_kpis` filter
`"C4" > 0`: adding a consolidated-daily row whose production kilograms
are not strictly positive changes none of the period KPIs — it
contributes neither to the summed kilograms or water volume, nor to the
period cycle count, nor to the derived ratios. -/
theorem C10_nonpositive_production_invisible
    (diario : List DiarioRow) (s e : DT) (cf : Option Int) (r : DiarioRow)
    (h : r.c4 ≤ 0) :
    stsPeriodoQuery (r :: diario) s e = stsPeriodoQuery diario s e
  ∧ productionPeriodoQuery (r :: diario) s e cf = productionPeriodoQuery diario s e cf
  ∧ waterPeriodoQuery (r :: diario) s e cf = waterPeriodoQuery diario s e cf := by
  have hb : (decide (0 < r.c4)) = false := decide_eq_false (not_lt.mpr h)
  refine ⟨?_, ?_, ?_⟩
  · simp [stsPeriodoQuery, List.filter_cons, hb]
  · simp [productionPeriodoQuery, List.filter_cons, hb]
  · simp [waterPeriodoQuery, List.filter_cons, hb]

/-- A consolidated-daily table with one positive-production row
(50 kg, 2 m³ water on day 0). -/
def diarioPos : List DiarioRow := [⟨mid 0, 0, 0, 2, 50, 7⟩]

/-- A consolidated-daily row with zero production but nonzero water. -/
def zeroProdRow : DiarioRow := ⟨mid 0, 0, 0, 3, 0, 7⟩

/-- Witness for C10: prepending the zero-production row to a
one-positive-row table leaves all three period queries unchanged. -/
theorem C10_nonpositive_production_invisible_witness :
    zeroProdRow.c4 ≤ 0
  ∧ stsPeriodoQuery (zeroProdRow :: diarioPos) (mid 0) (mid 6) =
      stsPeriodoQuery diarioPos (mid 0) (mid 6)
  ∧ productionPeriodoQuery (zeroProdRow :: diarioPos) (mid 0) (mid 6) none =
      productionPeriodoQuery diarioPos (mid 0) (mid 6) none
  ∧ waterPeriodoQuery (zeroProdRow :: diarioPos) (mid 0) (mid 6) none =
      waterPeriodoQuery diarioPos (mid 0) (mid 6) none := by
  have h : zeroProdRow.c4 ≤ 0 := le_refl 0
  exact ⟨h,
    (C10_nonpositive_production_invisible diarioPos (mid 0) (mid 6) none zeroProdRow h).1,
    (C10_nonpositive_production_invisible diarioPos (mid 0) (mid 6) none zeroProdRow h).2.1,
    (C10_nonpositive_production_invisible diarioPos (mid 0) (mid 6) none zeroProdRow h).2.2⟩

end DSTech
